import Mathlib

/-!
Verification of the Hvisor per-core CPU control plane, shallowly embedded
from the Rust/Verus sources (arch/x86_64/cpu.rs, x86_idle.rs,
x86_vmxlaunch.rs).  Machine integers (u64, usize) are modelled as Nat with
an explicit reduction modulo 2^64 at the one arithmetic assignment where
overflow is possible.  Opaque fallible hardware operations take a Boolean
oracle deciding success; on success their effect on the modelled fields is
the one stated by the ensures clause of the source (the bodies are trusted
hardware stubs); on failure they leave the modelled fields untouched, as
their bodies mutate none of them.
-/

namespace Hvisor

/-- Constant MAX_CPU_NUM from cpu.rs (256). -/
def MAX_CPU_NUM : Nat := 256

/-- Constant PER_CPU_SIZE from cpu.rs (512 KiB = 524288 bytes). -/
def PER_CPU_SIZE : Nat := 524288

/-- Largest u64 value, used to state the no-overflow preconditions. -/
def U64_MAX : Nat := 2 ^ 64 - 1

/-- Number of u64 values; u64 arithmetic reduces modulo this. -/
def U64_LIMIT : Nat := 2 ^ 64

/-- In-memory register frame GeneralRegisters from cpu.rs: sixteen u64
slots in the fixed ABI order, with one slot reserved for rsp. -/
structure GeneralRegisters where
  rax : Nat
  rcx : Nat
  rdx : Nat
  rbx : Nat
  unused_rsp : Nat
  rbp : Nat
  rsi : Nat
  rdi : Nat
  r8 : Nat
  r9 : Nat
  r10 : Nat
  r11 : Nat
  r12 : Nat
  r13 : Nat
  r14 : Nat
  r15 : Nat
  deriving DecidableEq, Repr

/-- Validity of a register frame, from GeneralRegisters::is_valid: any bit
pattern is acceptable. -/
def GeneralRegisters.is_valid (_ : GeneralRegisters) : Prop := True

instance (g : GeneralRegisters) : Decidable g.is_valid := .isTrue trivial

/-- Field byte offsets of GeneralRegisters, from the offset_of spec
functions in cpu.rs and x86_vmxlaunch.rs. -/
def GeneralRegisters.offset_of_rax : Nat := 0

def GeneralRegisters.offset_of_rcx : Nat := 8

def GeneralRegisters.offset_of_rdx : Nat := 16

def GeneralRegisters.offset_of_rbx : Nat := 24

def GeneralRegisters.offset_of_rbp : Nat := 40

def GeneralRegisters.offset_of_rsi : Nat := 48

def GeneralRegisters.offset_of_rdi : Nat := 56

def GeneralRegisters.offset_of_r8 : Nat := 64

def GeneralRegisters.offset_of_r9 : Nat := 72

def GeneralRegisters.offset_of_r10 : Nat := 80

def GeneralRegisters.offset_of_r11 : Nat := 88

def GeneralRegisters.offset_of_r12 : Nat := 96

def GeneralRegisters.offset_of_r13 : Nat := 104

def GeneralRegisters.offset_of_r14 : Nat := 112

def GeneralRegisters.offset_of_r15 : Nat := 120

/-- Total size of the register frame in bytes, from
GeneralRegisters::size. -/
def GeneralRegisters.size : Nat := 128

/-- Register frame with every slot zero, as built by ArchCpu::new. -/
def GeneralRegisters.zero : GeneralRegisters :=
  { rax := 0, rcx := 0, rdx := 0, rbx := 0, unused_rsp := 0, rbp := 0
  , rsi := 0, rdi := 0, r8 := 0, r9 := 0, r10 := 0, r11 := 0
  , r12 := 0, r13 := 0, r14 := 0, r15 := 0 }

/-- Abstract CPU register state from x86_vmxlaunch.rs (CpuRegisters). -/
structure CpuRegisters where
  rax : Nat
  rbx : Nat
  rcx : Nat
  rdx : Nat
  rsi : Nat
  rdi : Nat
  rbp : Nat
  rsp : Nat
  r8 : Nat
  r9 : Nat
  r10 : Nat
  r11 : Nat
  r12 : Nat
  r13 : Nat
  r14 : Nat
  r15 : Nat
  deriving DecidableEq, Repr

/-- Reference mapping from a register frame to CPU registers, from
GeneralRegisters::to_cpu_registers in x86_vmxlaunch.rs; rsp is not loaded
from the frame and is specified as 0. -/
def GeneralRegisters.to_cpu_registers (g : GeneralRegisters) : CpuRegisters :=
  { rax := g.rax, rbx := g.rbx, rcx := g.rcx, rdx := g.rdx
  , rsi := g.rsi, rdi := g.rdi, rbp := g.rbp, rsp := 0
  , r8 := g.r8, r9 := g.r9, r10 := g.r10, r11 := g.r11
  , r12 := g.r12, r13 := g.r13, r14 := g.r14, r15 := g.r15 }

/-- Per-core architectural state, from struct ArchCpu in cpu.rs.  The
VmxRegion handles are modelled by their frame field (Option of an
address); fake_init yields none, the uninitialized form.  The owned
VirtLocalApic handle carries no data at this level and is omitted. -/
structure ArchCpu where
  guest_regs : GeneralRegisters
  host_stack_top : Nat
  cpuid : Nat
  power_on : Bool
  vmx_on : Bool
  vmcs_configured : Bool
  vmcs_revision_id : Nat
  vmxon_region : Option Nat
  vmcs_region : Option Nat
  vm_launch_guest_regs : GeneralRegisters
  deriving DecidableEq, Repr

/-- Platform environment supplying the two uninterpreted spec functions of
cpu.rs: spec_core_end (the kernel boundary address) and spec_this_cpu_id
(the hardware-reported current core id). -/
structure Env where
  core_end : Nat
  this_cpu_id : Nat
  deriving DecidableEq, Repr

/-- Trusted facts about the platform environment, collected from the
sources: core_end() ensures its result is positive and is a u64;
this_cpu_id() ensures its result is below MAX_CPU_NUM; the proof of
ArchCpu::idle_set_stack_top assumes spec_core_end() is 16-byte aligned
(and PER_CPU_SIZE a multiple of 16, which holds by computation). -/
def Env.wf (env : Env) : Prop :=
  0 < env.core_end ∧ env.core_end ≤ U64_MAX ∧ env.core_end % 16 = 0 ∧
    env.this_cpu_id < MAX_CPU_NUM

instance (env : Env) : Decidable env.wf := by
  unfold Env.wf; infer_instance

/-- Core invariant ArchCpu::inv from cpu.rs: the core id is in range, VMX
enabled implies the VMCS is configured, the guest frame is valid, and the
host stack top is zero or 16-byte aligned. -/
def ArchCpu.inv (s : ArchCpu) : Prop :=
  s.cpuid < MAX_CPU_NUM ∧
    (s.vmx_on = true → s.vmcs_configured = true) ∧
    s.guest_regs.is_valid ∧
    (s.host_stack_top = 0 ∨ s.host_stack_top % 16 = 0)

instance (s : ArchCpu) : Decidable s.inv := by
  unfold ArchCpu.inv; infer_instance

/-- Readiness predicate ArchCpu::ready_for_idle from cpu.rs. -/
def ArchCpu.ready_for_idle (env : Env) (s : ArchCpu) : Prop :=
  s.vmx_on = true ∧ s.vmcs_configured = true ∧ s.host_stack_top > 0 ∧
    s.host_stack_top > env.core_end ∧ s.power_on = false ∧
    s.host_stack_top % 16 = 0

instance (env : Env) (s : ArchCpu) : Decidable (s.ready_for_idle env) := by
  unfold ArchCpu.ready_for_idle; infer_instance

/-- Readiness predicate ArchCpu::ready_for_vm_launch from cpu.rs. -/
def ArchCpu.ready_for_vm_launch (s : ArchCpu) : Prop :=
  s.vmx_on = true ∧ s.vmcs_configured = true ∧ s.guest_regs.is_valid

/-- Constructor ArchCpu::new from cpu.rs.  The cpuid argument is only a
precondition carrier; the stored core id is read from the hardware via
this_cpu_id(), both register frames are zeroed, and every flag and handle
starts cleared. -/
def ArchCpu.new (env : Env) (cpuid : Nat) : ArchCpu :=
  { guest_regs := GeneralRegisters.zero
  , host_stack_top := 0
  , cpuid := env.this_cpu_id
  , power_on := false
  , vmx_on := false
  , vmcs_configured := false
  , vmcs_revision_id := 0
  , vmxon_region := none
  , vmcs_region := none
  , vm_launch_guest_regs := GeneralRegisters.zero }

/-- Idle step 1, ArchCpu::idle_clear_interrupt: signals end-of-interrupt
on the owned local APIC; by its ensures clause every modelled field is
unchanged. -/
def ArchCpu.idle_clear_interrupt (s : ArchCpu) : ArchCpu := s

/-- Idle step 2, ArchCpu::idle_verify_cpu_id: a consistency assertion that
the stored core id matches spec_this_cpu_id(); it takes the state by
shared reference and mutates nothing. -/
def ArchCpu.idle_verify_cpu_id (s : ArchCpu) : ArchCpu := s

/-- Idle step 3, ArchCpu::idle_set_power_state: clears power_on. -/
def ArchCpu.idle_set_power_state (s : ArchCpu) : ArchCpu :=
  { s with power_on := false }

/-- Idle step 4, ArchCpu::idle_activate_vmx: fallible hardware operation
(VMXON, VMCLEAR, VMPTRLD).  On success its ensures clause makes vmx_on and
vmcs_configured true as a pair and frames cpuid, power_on and
host_stack_top; on failure the body touches no modelled field. -/
def ArchCpu.idle_activate_vmx (ok : Bool) (s : ArchCpu) :
    Except Unit ArchCpu :=
  if ok then .ok { s with vmx_on := true, vmcs_configured := true }
  else .error ()

/-- Idle step 5, ArchCpu::idle_init_parking: one-time setup of the parking
memory; by its ensures clause every modelled field is unchanged. -/
def ArchCpu.idle_init_parking (s : ArchCpu) : ArchCpu := s

/-- Idle step 6, ArchCpu::idle_setup_vmcs: fallible VMCS configuration for
idle, requiring vmx_on.  On success vmcs_configured is true and cpuid,
vmx_on, power_on and host_stack_top are framed; on failure the body
touches no modelled field. -/
def ArchCpu.idle_setup_vmcs (ok : Bool) (s : ArchCpu) :
    Except Unit ArchCpu :=
  if ok then .ok { s with vmcs_configured := true } else .error ()

/-- Idle step 7, ArchCpu::idle_set_stack_top: assigns
host_stack_top := core_end() + (cpuid + 1) * PER_CPU_SIZE, a u64
computation, hence reduced modulo 2^64. -/
def ArchCpu.idle_set_stack_top (env : Env) (s : ArchCpu) : ArchCpu :=
  { s with host_stack_top :=
      (env.core_end + (s.cpuid + 1) * PER_CPU_SIZE) % U64_LIMIT }

/-- Outcome of running ArchCpu::idle.  All three constructors are
diverging points of the source: haltedAtVmx and haltedAtVmcs are the
permanent halt loops entered when step 4 or step 6 reports failure
(carrying the state at that point), and parked is the invocation of
step 8, idle_activate_and_launch, which never returns. -/
inductive IdleResult where
  | haltedAtVmx (s : ArchCpu)
  | haltedAtVmcs (s : ArchCpu)
  | parked (s : ArchCpu)
  deriving DecidableEq, Repr

/-- The idle sequence ArchCpu::idle from cpu.rs: steps 1 through 7 in
order, halting permanently if step 4 or step 6 fails, and otherwise
committing to parked execution (step 8) with the resulting state.  The
two Boolean oracles decide the outcomes of the fallible hardware
operations of steps 4 and 6. -/
def ArchCpu.idle (env : Env) (vmx_ok vmcs_ok : Bool) (s : ArchCpu) :
    IdleResult :=
  let s1 := s.idle_clear_interrupt
  let s2 := s1.idle_verify_cpu_id
  let s3 := s2.idle_set_power_state
  match s3.idle_activate_vmx vmx_ok with
  | .error _ => .haltedAtVmx s3
  | .ok s4 =>
    let s5 := s4.idle_init_parking
    match s5.idle_setup_vmcs vmcs_ok with
    | .error _ => .haltedAtVmcs s5
    | .ok s6 => .parked (s6.idle_set_stack_top env)

/-- Launch step 1, ArchCpu::activate_vmx: fallible VMX activation.  On
success vmx_on and vmcs_configured become true and cpuid and power_on are
framed; on failure the body touches no modelled field. -/
def ArchCpu.activate_vmx (ok : Bool) (s : ArchCpu) : Except Unit ArchCpu :=
  if ok then .ok { s with vmx_on := true, vmcs_configured := true }
  else .error ()

/-- Launch step 2, ArchCpu::setup_vmcs: fallible VMCS configuration for
guest entry.  The entry and rsp arguments initialize VMCS guest-state
fields, which are not part of the modelled state; on success
vmcs_configured is true and cpuid, vmx_on and power_on are framed; on
failure the body touches no modelled field. -/
def ArchCpu.setup_vmcs (ok : Bool) (s : ArchCpu) (entry rsp : Nat) :
    Except Unit ArchCpu :=
  if ok then .ok { s with vmcs_configured := true } else .error ()

/-- Requires clause of ArchCpu::setup_vmcs, verbatim from cpu.rs: the
invariant and vmx_on.  The entry and rsp parameters are unconstrained
by it. -/
def ArchCpu.setup_vmcs_req (s : ArchCpu) (entry rsp : Nat) : Prop :=
  s.inv ∧ s.vmx_on = true

instance (s : ArchCpu) (entry rsp : Nat) :
    Decidable (s.setup_vmcs_req entry rsp) := by
  unfold ArchCpu.setup_vmcs_req; infer_instance

/-- Modelled from the spec: the precondition the specification attributes
to the configure-control-structure operation for guest entry, namely
entry > 0, rsp > 0, rsp mod 16 == 0, and virtualization already
enabled. -/
def setupVmcsReqSpec (s : ArchCpu) (entry rsp : Nat) : Prop :=
  entry > 0 ∧ rsp > 0 ∧ rsp % 16 = 0 ∧ s.vmx_on = true

instance (s : ArchCpu) (entry rsp : Nat) :
    Decidable (setupVmcsReqSpec s entry rsp) := by
  unfold setupVmcsReqSpec; infer_instance

/-- Error value returned by a failed vmlaunch, from x86_vmxlaunch.rs. -/
structure VmxError where
  code : Nat
  deriving DecidableEq, Repr

/-- Return type of Instr_Vmlaunch::execute, from x86_vmxlaunch.rs: a
Result whose success payload is the never type, modelled by Empty. -/
abbrev VmlaunchRet : Type := Except VmxError Empty

/-- Whether a value actually returned by vmlaunch reports success.  The
success payload is uninhabited, so this is always false. -/
def vmlaunchReturnsOk (r : VmlaunchRet) : Bool :=
  match r with
  | .ok v => v.elim
  | .error _ => false

/-- Outcome of the launch path.  enteredGuest models a successful
vmlaunch, after which control is in the guest and never returns;
fatalHalt models Self::vmx_entry_failed(), the permanent halt reached on
any failure; normalReturn would model the launch call returning to its
caller in the ordinary way, and is proved unreachable. -/
inductive LaunchOutcome where
  | enteredGuest (s : ArchCpu)
  | fatalHalt
  | normalReturn (s : ArchCpu)
  deriving DecidableEq, Repr

/-- Whether a launch outcome is an ordinary return to the caller. -/
def LaunchOutcome.isNormalReturn : LaunchOutcome → Bool
  | .normalReturn _ => true
  | _ => false

/-- The launch sequence ArchCpu::launch_vm from cpu.rs combined with the
instruction-level vmlaunch model of x86_vmxlaunch.rs: activate VMX,
configure the VMCS from entry and rsp, then transfer control to the
guest.  Failure of either fallible step runs Self::vmx_entry_failed().
The vml oracle is none when the hardware vmlaunch succeeds (control
passes to the guest and never comes back) and some error code when it
falls through, in which case the jump to the failure path halts
permanently. -/
def ArchCpu.launch_vm (a c : Bool) (vml : Option VmxError) (s : ArchCpu)
    (entry rsp : Nat) : LaunchOutcome :=
  match s.activate_vmx a with
  | .error _ => .fatalHalt
  | .ok s1 =>
    match s1.setup_vmcs c entry rsp with
    | .error _ => .fatalHalt
    | .ok s2 =>
      match vml with
      | none => .enteredGuest s2
      | some _ => .fatalHalt

/-- Operation ArchCpu::advance_guest_rip: a fallible VMCS write advancing
the guest instruction pointer, which is not part of the modelled state;
its ensures clause frames cpuid, vmx_on and vmcs_configured. -/
def ArchCpu.advance_guest_rip (ok : Bool) (instr_len : Nat) (s : ArchCpu) :
    Except Unit ArchCpu :=
  if ok then .ok s else .error ()

/-- Operation ArchCpu::vmexit_handler: dispatches on the hardware exit
reason; its ensures clause preserves the invariant and frames cpuid,
vmx_on and vmcs_configured, and it mutates no modelled field. -/
def ArchCpu.vmexit_handler (s : ArchCpu) : ArchCpu := s

/-- Postcondition of the instruction mov rsp, rdi, verbatim from
Instr_MovRspRdi::postcondition: rsp becomes the old rdi and every other
register is unchanged. -/
def Instr_MovRspRdi.postcondition (o n : CpuRegisters) : Prop :=
  n.rsp = o.rdi ∧ n.rax = o.rax ∧ n.rbx = o.rbx ∧ n.rcx = o.rcx ∧
    n.rdx = o.rdx ∧ n.rsi = o.rsi ∧ n.rdi = o.rdi ∧ n.rbp = o.rbp ∧
    n.r8 = o.r8 ∧ n.r9 = o.r9 ∧ n.r10 = o.r10 ∧ n.r11 = o.r11 ∧
    n.r12 = o.r12 ∧ n.r13 = o.r13 ∧ n.r14 = o.r14 ∧ n.r15 = o.r15

/-- Execution of mov rsp, rdi, from Instr_MovRspRdi::execute. -/
def Instr_MovRspRdi.execute (r : CpuRegisters) : CpuRegisters :=
  { r with rsp := r.rdi }

/-- Postcondition of pop rax, verbatim from Instr_PopRax::postcondition:
rax receives the value read from memory, rsp advances by 8, and every
other register is unchanged. -/
def Instr_PopRax.postcondition (o n : CpuRegisters)
    (memory_value : Nat) : Prop :=
  n.rax = memory_value ∧ n.rsp = o.rsp + 8 ∧ n.rbx = o.rbx ∧
    n.rcx = o.rcx ∧ n.rdx = o.rdx ∧ n.rsi = o.rsi ∧ n.rdi = o.rdi ∧
    n.rbp = o.rbp ∧ n.r8 = o.r8 ∧ n.r9 = o.r9 ∧ n.r10 = o.r10 ∧
    n.r11 = o.r11 ∧ n.r12 = o.r12 ∧ n.r13 = o.r13 ∧ n.r14 = o.r14 ∧
    n.r15 = o.r15

/-- Execution of pop rax, from Instr_PopRax::execute: with rsp at the rax
slot of the frame, loads guest_regs.rax into rax, advances rsp by 8 and
returns the loaded value. -/
def Instr_PopRax.execute (r : CpuRegisters) (g : GeneralRegisters) :
    CpuRegisters × Nat :=
  ({ r with rax := g.rax, rsp := r.rsp + 8 }, g.rax)

/-- Postcondition of pop rcx, verbatim from Instr_PopRcx::postcondition. -/
def Instr_PopRcx.postcondition (o n : CpuRegisters)
    (memory_value : Nat) : Prop :=
  n.rcx = memory_value ∧ n.rsp = o.rsp + 8 ∧ n.rax = o.rax ∧
    n.rbx = o.rbx ∧ n.rdx = o.rdx ∧ n.rsi = o.rsi ∧ n.rdi = o.rdi ∧
    n.rbp = o.rbp ∧ n.r8 = o.r8 ∧ n.r9 = o.r9 ∧ n.r10 = o.r10 ∧
    n.r11 = o.r11 ∧ n.r12 = o.r12 ∧ n.r13 = o.r13 ∧ n.r14 = o.r14 ∧
    n.r15 = o.r15

/-- Execution of pop rcx, from Instr_PopRcx::execute. -/
def Instr_PopRcx.execute (r : CpuRegisters) (g : GeneralRegisters) :
    CpuRegisters × Nat :=
  ({ r with rcx := g.rcx, rsp := r.rsp + 8 }, g.rcx)

/-- Initial abstract CPU register state of vmx_launch_simulated: all
registers zero, with rdi holding the (abstract, zero) address of the
ArchCpu whose guest_regs sit at offset 0. -/
def launchSimInit : CpuRegisters :=
  { rax := 0, rbx := 0, rcx := 0, rdx := 0, rsi := 0, rdi := 0, rbp := 0
  , rsp := 0, r8 := 0, r9 := 0, r10 := 0, r11 := 0, r12 := 0, r13 := 0
  , r14 := 0, r15 := 0 }

/-- Register state after the mov rsp, rdi of vmx_launch_simulated. -/
def launchSimAfterMov : CpuRegisters :=
  Instr_MovRspRdi.execute launchSimInit

/-- Register state after the pop rax of vmx_launch_simulated. -/
def launchSimAfterRax (g : GeneralRegisters) : CpuRegisters :=
  (Instr_PopRax.execute launchSimAfterMov g).1

/-- Register state after the pop rcx of vmx_launch_simulated. -/
def launchSimAfterRcx (g : GeneralRegisters) : CpuRegisters :=
  (Instr_PopRcx.execute (launchSimAfterRax g) g).1

/-- Externally invocable operations on an ArchCpu, with Boolean oracles
for the fallible hardware steps and the arguments of the parameterized
ones. -/
inductive Op where
  | clearInterrupt
  | verifyCpuId
  | setPowerState
  | activateVmxIdle (ok : Bool)
  | initParking
  | setupVmcsIdle (ok : Bool)
  | setStackTop
  | activateVmx (ok : Bool)
  | setupVmcs (ok : Bool) (entry rsp : Nat)
  | advanceGuestRip (ok : Bool) (instr_len : Nat)
  | vmexitHandler
  deriving DecidableEq, Repr

/-- State reached after one operation.  A fallible operation that reports
failure leaves the state as it was, matching the bodies of the source. -/
def stepOp (env : Env) (op : Op) (s : ArchCpu) : ArchCpu :=
  match op with
  | .clearInterrupt => s.idle_clear_interrupt
  | .verifyCpuId => s.idle_verify_cpu_id
  | .setPowerState => s.idle_set_power_state
  | .activateVmxIdle ok =>
    match s.idle_activate_vmx ok with
    | .ok t => t
    | .error _ => s
  | .initParking => s.idle_init_parking
  | .setupVmcsIdle ok =>
    match s.idle_setup_vmcs ok with
    | .ok t => t
    | .error _ => s
  | .setStackTop => s.idle_set_stack_top env
  | .activateVmx ok =>
    match s.activate_vmx ok with
    | .ok t => t
    | .error _ => s
  | .setupVmcs ok entry rsp =>
    match s.setup_vmcs ok entry rsp with
    | .ok t => t
    | .error _ => s
  | .advanceGuestRip ok len =>
    match s.advance_guest_rip ok len with
    | .ok t => t
    | .error _ => s
  | .vmexitHandler => s.vmexit_handler

/-- State reached after a sequence of operations. -/
def runOps (env : Env) (ops : List Op) (s : ArchCpu) : ArchCpu :=
  ops.foldl (fun t op => stepOp env op t) s

/-- Modelled from the spec: the readiness condition the specification
states for the parked terminal step, for comparison with the source
predicate ArchCpu::ready_for_idle. -/
def readyForIdleSpec (env : Env) (s : ArchCpu) : Prop :=
  s.vmx_on = true ∧ s.vmcs_configured = true ∧
    s.host_stack_top > env.core_end ∧ s.power_on = false ∧
    s.host_stack_top % 16 = 0

/-- Concrete platform environment used by the witnesses: the sample
core_end value 0x10000000 of the source and hardware core id 0. -/
def env0 : Env := { core_end := 0x10000000, this_cpu_id := 0 }

/-- Concrete freshly created per-core state used by the witnesses. -/
def cpu0 : ArchCpu := ArchCpu.new env0 0

/-- Concrete per-core state with virtualization enabled and the VMCS
configured, used by the counterexample for the setup_vmcs precondition
claim. -/
def cexCpu : ArchCpu :=
  { cpu0 with vmx_on := true, vmcs_configured := true }

/-- Concrete state at the parked commit point of the idle run started
from cpu0, used by a witness. -/
def idleParked0 : ArchCpu :=
  { cpu0 with
      power_on := false
      vmx_on := true
      vmcs_configured := true
      host_stack_top := 0x10080000 }

/-- Alignment of the freshly assigned stack top: the reduction modulo
2^64 never disturbs 16-byte alignment because 16 divides 2^64, and both
summands are multiples of 16 when core_end is. -/
theorem stack_top_mod16 (env : Env) (halign : env.core_end % 16 = 0)
    (k : Nat) : (env.core_end + k * PER_CPU_SIZE) % U64_LIMIT % 16 = 0 := by
  have hdvd : (16 : Nat) ∣ U64_LIMIT := by decide
  rw [Nat.mod_mod_of_dvd _ hdvd, Nat.add_mod, halign, Nat.mul_mod]
  norm_num [PER_CPU_SIZE]

/-- One operation preserves the core invariant, for a platform with an
aligned kernel boundary. -/
theorem stepOp_preserves_inv (env : Env) (halign : env.core_end % 16 = 0)
    (op : Op) (s : ArchCpu) (h : s.inv) : (stepOp env op s).inv := by
  obtain ⟨h1, h2, h3, h4⟩ := h
  cases op with
  | clearInterrupt => exact ⟨h1, h2, h3, h4⟩
  | verifyCpuId => exact ⟨h1, h2, h3, h4⟩
  | setPowerState => exact ⟨h1, h2, h3, h4⟩
  | activateVmxIdle ok =>
    cases ok with
    | false => exact ⟨h1, h2, h3, h4⟩
    | true => exact ⟨h1, fun _ => rfl, h3, h4⟩
  | initParking => exact ⟨h1, h2, h3, h4⟩
  | setupVmcsIdle ok =>
    cases ok with
    | false => exact ⟨h1, h2, h3, h4⟩
    | true => exact ⟨h1, fun _ => rfl, h3, h4⟩
  | setStackTop =>
    exact ⟨h1, h2, h3, Or.inr (stack_top_mod16 env halign (s.cpuid + 1))⟩
  | activateVmx ok =>
    cases ok with
    | false => exact ⟨h1, h2, h3, h4⟩
    | true => exact ⟨h1, fun _ => rfl, h3, h4⟩
  | setupVmcs ok entry rsp =>
    cases ok with
    | false => exact ⟨h1, h2, h3, h4⟩
    | true => exact ⟨h1, fun _ => rfl, h3, h4⟩
  | advanceGuestRip ok len =>
    cases ok with
    | false => exact ⟨h1, h2, h3, h4⟩
    | true => exact ⟨h1, h2, h3, h4⟩
  | vmexitHandler => exact ⟨h1, h2, h3, h4⟩

/-- A whole sequence of operations preserves the core invariant. -/
theorem runOps_preserves_inv (env : Env) (halign : env.core_end % 16 = 0)
    (ops : List Op) (s : ArchCpu) (h : s.inv) : (runOps env ops s).inv := by
  induction ops generalizing s with
  | nil => exact h
  | cons op rest ih => exact ih _ (stepOp_preserves_inv env halign op s h)

/-- C3: the predicate ready_for_idle holds exactly when virtualization is
enabled, the control structure is configured, the host stack top exceeds
the kernel boundary address, power is off, and the host stack top is
16-byte aligned. -/
theorem ready_for_idle_iff (env : Env) (s : ArchCpu) :
    s.ready_for_idle env ↔ readyForIdleSpec env s := by
  unfold ArchCpu.ready_for_idle readyForIdleSpec
  constructor
  · rintro ⟨h1, h2, _, h4, h5, h6⟩
    exact ⟨h1, h2, h4, h5, h6⟩
  · rintro ⟨h1, h2, h3, h4, h5⟩
    exact ⟨h1, h2, by omega, h3, h4, h5⟩

/-- C4: when the enable-virtualization step reports failure, the idle
sequence halts permanently at step 4, never reaching the stack-assignment
step, and the host stack top still has its old value. -/
theorem idle_vmx_failure_halts (env : Env) (vmcs_ok : Bool) (s : ArchCpu) :
    ∃ t, s.idle env false vmcs_ok = IdleResult.haltedAtVmx t ∧
      t.host_stack_top = s.host_stack_top :=
  ⟨{ s with power_on := false }, rfl, rfl⟩

/-- C5: for every core id below the bound, construction yields a state
satisfying the invariant, with both register frames zeroed, host stack
top zero, power off, virtualization disabled, control structure
unconfigured, and both hardware region handles uninitialized. -/
theorem new_initial_state (env : Env) (cid : Nat)
    (hcid : cid < MAX_CPU_NUM) (hwf : env.wf) :
    (ArchCpu.new env cid).inv ∧
      (ArchCpu.new env cid).guest_regs = GeneralRegisters.zero ∧
      (ArchCpu.new env cid).vm_launch_guest_regs = GeneralRegisters.zero ∧
      (ArchCpu.new env cid).host_stack_top = 0 ∧
      (ArchCpu.new env cid).power_on = false ∧
      (ArchCpu.new env cid).vmx_on = false ∧
      (ArchCpu.new env cid).vmcs_configured = false ∧
      (ArchCpu.new env cid).vmxon_region = none ∧
      (ArchCpu.new env cid).vmcs_region = none :=
  ⟨⟨hwf.2.2.2, fun h => (Bool.false_ne_true h).elim, trivial, Or.inl rfl⟩,
    rfl, rfl, rfl, rfl, rfl, rfl, rfl, rfl⟩

/-- Witness for C5 at the concrete platform env0 and core id 0. -/
theorem new_initial_state_witness :
    ((0 : Nat) < MAX_CPU_NUM ∧ env0.wf) ∧
      ((ArchCpu.new env0 0).inv ∧
        (ArchCpu.new env0 0).guest_regs = GeneralRegisters.zero ∧
        (ArchCpu.new env0 0).vm_launch_guest_regs = GeneralRegisters.zero ∧
        (ArchCpu.new env0 0).host_stack_top = 0 ∧
        (ArchCpu.new env0 0).power_on = false ∧
        (ArchCpu.new env0 0).vmx_on = false ∧
        (ArchCpu.new env0 0).vmcs_configured = false ∧
        (ArchCpu.new env0 0).vmxon_region = none ∧
        (ArchCpu.new env0 0).vmcs_region = none) :=
  ⟨⟨by decide, by decide⟩, new_initial_state env0 0 (by decide) (by decide)⟩

/-- C10: the constructor ignores its core-id argument; any two in-range
arguments yield identical states, whose stored core id is the
hardware-reported current core id. -/
theorem new_ignores_argument (env : Env) (a b : Nat)
    (ha : a < MAX_CPU_NUM) (hb : b < MAX_CPU_NUM) :
    ArchCpu.new env a = ArchCpu.new env b ∧
      (ArchCpu.new env a).cpuid = env.this_cpu_id :=
  ⟨rfl, rfl⟩

/-- Witness for C10 at the concrete platform env0 and core ids 0 and 1. -/
theorem new_ignores_argument_witness :
    ((0 : Nat) < MAX_CPU_NUM ∧ (1 : Nat) < MAX_CPU_NUM) ∧
      (ArchCpu.new env0 0 = ArchCpu.new env0 1 ∧
        (ArchCpu.new env0 0).cpuid = env0.this_cpu_id) :=
  ⟨⟨by decide, by decide⟩, new_ignores_argument env0 0 1 (by decide) (by decide)⟩

/-- C2: the assign-host-stack step sets the host stack top to exactly
core_end plus (cpuid plus one) times the per-core stack size, which then
exceeds the kernel boundary and is 16-byte aligned, while cpuid, vmx_on,
vmcs_configured and power_on are unchanged. -/
theorem idle_set_stack_top_contract (env : Env) (s : ArchCpu)
    (hinv : s.inv) (hcpu : s.cpuid < MAX_CPU_NUM)
    (hov : env.core_end + (s.cpuid + 1) * PER_CPU_SIZE ≤ U64_MAX)
    (halign : env.core_end % 16 = 0) :
    (s.idle_set_stack_top env).host_stack_top
        = env.core_end + (s.cpuid + 1) * PER_CPU_SIZE ∧
      (s.idle_set_stack_top env).host_stack_top > env.core_end ∧
      (s.idle_set_stack_top env).host_stack_top % 16 = 0 ∧
      (s.idle_set_stack_top env).cpuid = s.cpuid ∧
      (s.idle_set_stack_top env).vmx_on = s.vmx_on ∧
      (s.idle_set_stack_top env).vmcs_configured = s.vmcs_configured ∧
      (s.idle_set_stack_top env).power_on = s.power_on := by
  have hlim : env.core_end + (s.cpuid + 1) * PER_CPU_SIZE < U64_LIMIT := by
    have h : U64_MAX + 1 = U64_LIMIT := by norm_num [U64_MAX, U64_LIMIT]
    omega
  have hmod : (env.core_end + (s.cpuid + 1) * PER_CPU_SIZE) % U64_LIMIT
      = env.core_end + (s.cpuid + 1) * PER_CPU_SIZE := Nat.mod_eq_of_lt hlim
  refine ⟨hmod, ?_, ?_, rfl, rfl, rfl, rfl⟩
  · show (env.core_end + (s.cpuid + 1) * PER_CPU_SIZE) % U64_LIMIT
        > env.core_end
    rw [hmod]
    have hpos : 0 < (s.cpuid + 1) * PER_CPU_SIZE :=
      Nat.mul_pos (Nat.succ_pos _) (by norm_num [PER_CPU_SIZE])
    omega
  · exact stack_top_mod16 env halign (s.cpuid + 1)

/-- Witness for C2 at the concrete platform env0 and state cpu0. -/
theorem idle_set_stack_top_contract_witness :
    (cpu0.inv ∧ cpu0.cpuid < MAX_CPU_NUM ∧
      env0.core_end + (cpu0.cpuid + 1) * PER_CPU_SIZE ≤ U64_MAX ∧
      env0.core_end % 16 = 0) ∧
      ((cpu0.idle_set_stack_top env0).host_stack_top
          = env0.core_end + (cpu0.cpuid + 1) * PER_CPU_SIZE ∧
        (cpu0.idle_set_stack_top env0).host_stack_top > env0.core_end ∧
        (cpu0.idle_set_stack_top env0).host_stack_top % 16 = 0 ∧
        (cpu0.idle_set_stack_top env0).cpuid = cpu0.cpuid ∧
        (cpu0.idle_set_stack_top env0).vmx_on = cpu0.vmx_on ∧
        (cpu0.idle_set_stack_top env0).vmcs_configured
          = cpu0.vmcs_configured ∧
        (cpu0.idle_set_stack_top env0).power_on = cpu0.power_on) :=
  ⟨⟨by decide, by decide, by decide, by decide⟩,
    idle_set_stack_top_contract env0 cpu0 (by decide) (by decide)
      (by decide) (by decide)⟩

/-- C1: from any state satisfying the idle precondition (invariant, core
id matching the hardware id and in range, no u64 overflow of the stack
computation), if the idle sequence reaches the commit-to-parked step then
the state there satisfies ready_for_idle. -/
theorem idle_reaches_ready_for_idle (env : Env) (vmx_ok vmcs_ok : Bool)
    (s t : ArchCpu) (hwf : env.wf) (hinv : s.inv)
    (hid : s.cpuid = env.this_cpu_id) (hcpu : s.cpuid < MAX_CPU_NUM)
    (hov : env.core_end + (s.cpuid + 1) * PER_CPU_SIZE ≤ U64_MAX)
    (hrun : s.idle env vmx_ok vmcs_ok = IdleResult.parked t) :
    t.ready_for_idle env := by
  obtain ⟨hA, hB, hC, hD⟩ := hwf
  cases vmx_ok with
  | false =>
    simp [ArchCpu.idle, ArchCpu.idle_clear_interrupt,
      ArchCpu.idle_verify_cpu_id, ArchCpu.idle_set_power_state,
      ArchCpu.idle_activate_vmx] at hrun
  | true =>
    cases vmcs_ok with
    | false =>
      simp [ArchCpu.idle, ArchCpu.idle_clear_interrupt,
        ArchCpu.idle_verify_cpu_id, ArchCpu.idle_set_power_state,
        ArchCpu.idle_activate_vmx, ArchCpu.idle_init_parking,
        ArchCpu.idle_setup_vmcs] at hrun
    | true =>
      simp only [ArchCpu.idle, ArchCpu.idle_clear_interrupt,
        ArchCpu.idle_verify_cpu_id, ArchCpu.idle_set_power_state,
        ArchCpu.idle_activate_vmx, ArchCpu.idle_init_parking,
        ArchCpu.idle_setup_vmcs, ArchCpu.idle_set_stack_top,
        if_true, IdleResult.parked.injEq] at hrun
      have hlim : env.core_end + (s.cpuid + 1) * PER_CPU_SIZE
          < U64_LIMIT := by
        have h : U64_MAX + 1 = U64_LIMIT := by norm_num [U64_MAX, U64_LIMIT]
        omega
      have hmod : (env.core_end + (s.cpuid + 1) * PER_CPU_SIZE) % U64_LIMIT
          = env.core_end + (s.cpuid + 1) * PER_CPU_SIZE :=
        Nat.mod_eq_of_lt hlim
      have hpos : 0 < (s.cpuid + 1) * PER_CPU_SIZE :=
        Nat.mul_pos (Nat.succ_pos _) (by norm_num [PER_CPU_SIZE])
      subst hrun
      refine ⟨rfl, rfl, ?_, ?_, rfl, ?_⟩
      · show 0 < (env.core_end + (s.cpuid + 1) * PER_CPU_SIZE) % U64_LIMIT
        rw [hmod]; omega
      · show env.core_end
            < (env.core_end + (s.cpuid + 1) * PER_CPU_SIZE) % U64_LIMIT
        rw [hmod]; omega
      · exact stack_top_mod16 env hC (s.cpuid + 1)

/-- Witness for C1: the idle run from cpu0 on platform env0 parks at
idleParked0, which is ready for idle. -/
theorem idle_reaches_ready_for_idle_witness :
    (env0.wf ∧ cpu0.inv ∧ cpu0.cpuid = env0.this_cpu_id ∧
      cpu0.cpuid < MAX_CPU_NUM ∧
      env0.core_end + (cpu0.cpuid + 1) * PER_CPU_SIZE ≤ U64_MAX ∧
      cpu0.idle env0 true true = IdleResult.parked idleParked0) ∧
      idleParked0.ready_for_idle env0 :=
  ⟨⟨by decide, by decide, by decide, by decide, by decide, by decide⟩,
    idle_reaches_ready_for_idle env0 true true cpu0 idleParked0 (by decide)
      (by decide) (by decide) (by decide) (by decide) (by decide)⟩

/-- C6: the core invariant holds after construction and at every point of
every sequence of operations run from a created state. -/
theorem inv_preserved_by_all_ops (env : Env) (hwf : env.wf) (cid : Nat)
    (ops : List Op) :
    (ArchCpu.new env cid).inv ∧
      (runOps env ops (ArchCpu.new env cid)).inv := by
  have hnew : (ArchCpu.new env cid).inv :=
    ⟨hwf.2.2.2, fun h => (Bool.false_ne_true h).elim, trivial, Or.inl rfl⟩
  exact ⟨hnew, runOps_preserves_inv env hwf.2.2.1 ops _ hnew⟩

/-- Witness for C6: a run through every kind of operation on the concrete
platform env0 keeps the invariant. -/
theorem inv_preserved_by_all_ops_witness :
    env0.wf ∧
      ((ArchCpu.new env0 0).inv ∧
        (runOps env0
          [Op.clearInterrupt, Op.verifyCpuId, Op.setPowerState,
            Op.activateVmxIdle true, Op.initParking, Op.setupVmcsIdle true,
            Op.setStackTop, Op.activateVmx false,
            Op.setupVmcs true 0x200000 0x300000,
            Op.advanceGuestRip true 3, Op.vmexitHandler]
          (ArchCpu.new env0 0)).inv) :=
  ⟨by decide, inv_preserved_by_all_ops env0 (by decide) 0 _⟩

/-- C7 counterexample: the requires clause of setup_vmcs in the source
admits the invocation at entry = 0 and rsp = 0 from a state with VMX
enabled (and the operation succeeds there), while the precondition the
claim attributes to it rejects that input; so setup_vmcs does not require
entry and rsp to be positive and aligned. -/
theorem setup_vmcs_req_counterexample :
    ArchCpu.setup_vmcs_req cexCpu 0 0 ∧ ¬ setupVmcsReqSpec cexCpu 0 0 ∧
      cexCpu.setup_vmcs true 0 0
        = Except.ok { cexCpu with vmcs_configured := true } :=
  ⟨by decide, by decide, rfl⟩

/-- C7 amended: setup_vmcs itself requires only the invariant and
virtualization enabled; the launch sequence, whose own precondition
demands entry > 0, rsp > 0 and rsp mod 16 == 0, invokes setup_vmcs only
in the state produced by a successful activate_vmx, where both the actual
requires clause and the conditions the spec lists all hold. -/
theorem launch_vm_setup_vmcs_callsite (a : Bool) (s s1 : ArchCpu)
    (entry rsp : Nat) (hinv : s.inv) (he : 0 < entry) (hr : 0 < rsp)
    (hr16 : rsp % 16 = 0) (hact : s.activate_vmx a = Except.ok s1) :
    s1.setup_vmcs_req entry rsp ∧ setupVmcsReqSpec s1 entry rsp := by
  cases a with
  | false => simp [ArchCpu.activate_vmx] at hact
  | true =>
    simp only [ArchCpu.activate_vmx, if_true, Except.ok.injEq] at hact
    obtain ⟨h1, h2, h3, h4⟩ := hinv
    subst hact
    exact ⟨⟨⟨h1, fun _ => rfl, trivial, h4⟩, rfl⟩, he, hr, hr16, rfl⟩

/-- Witness for the amended C7 at the concrete launch arguments of the
end-to-end scenario: entry 0x200000 and rsp 0x300000 from cpu0. -/
theorem launch_vm_setup_vmcs_callsite_witness :
    (cpu0.inv ∧ (0 : Nat) < 0x200000 ∧ (0 : Nat) < 0x300000 ∧
      (0x300000 : Nat) % 16 = 0 ∧
      cpu0.activate_vmx true = Except.ok cexCpu) ∧
      (cexCpu.setup_vmcs_req 0x200000 0x300000 ∧
        setupVmcsReqSpec cexCpu 0x200000 0x300000) :=
  ⟨⟨by decide, by decide, by decide, by decide, rfl⟩,
    launch_vm_setup_vmcs_callsite true cpu0 cexCpu 0x200000 0x300000
      (by decide) (by decide) (by decide) (by decide) rfl⟩

/-- C8: a value actually returned by the vmlaunch instruction never
reports success (its success payload is the never type), and the launch
path never produces an ordinary return to its caller: every outcome is
entering the guest or the permanent failure halt. -/
theorem launch_never_returns_normally :
    (∀ r : VmlaunchRet, vmlaunchReturnsOk r = false) ∧
      ∀ (a c : Bool) (vml : Option VmxError) (s : ArchCpu)
        (entry rsp : Nat),
        (ArchCpu.launch_vm a c vml s entry rsp).isNormalReturn = false := by
  constructor
  · intro r
    cases r with
    | ok v => exact v.elim
    | error e => rfl
  · intro a c vml s entry rsp
    cases a <;> cases c <;> cases vml <;> rfl

/-- C9: in the instruction-level launch model, the sequence mov rsp, rdi
then pop rax then pop rcx satisfies each instruction postcondition, loads
rax and rcx with exactly the frame values while rsp advances to 8 and
then 16, and agrees with the to_cpu_registers reference mapping on the
restored registers. -/
theorem restore_sequence_matches_frame (g : GeneralRegisters) :
    Instr_MovRspRdi.postcondition launchSimInit launchSimAfterMov ∧
      launchSimAfterMov.rsp = GeneralRegisters.offset_of_rax ∧
      Instr_PopRax.postcondition launchSimAfterMov (launchSimAfterRax g)
        g.rax ∧
      (launchSimAfterRax g).rax = g.rax ∧
      (launchSimAfterRax g).rsp = 8 ∧
      (launchSimAfterRax g).rsp = GeneralRegisters.offset_of_rcx ∧
      Instr_PopRcx.postcondition (launchSimAfterRax g) (launchSimAfterRcx g)
        g.rcx ∧
      (launchSimAfterRcx g).rcx = g.rcx ∧
      (launchSimAfterRcx g).rsp = 16 ∧
      (launchSimAfterRcx g).rax = (g.to_cpu_registers).rax ∧
      (launchSimAfterRcx g).rcx = (g.to_cpu_registers).rcx := by
  simp [Instr_MovRspRdi.postcondition, Instr_PopRax.postcondition,
    Instr_PopRcx.postcondition, Instr_MovRspRdi.execute,
    Instr_PopRax.execute, Instr_PopRcx.execute, launchSimInit,
    launchSimAfterMov, launchSimAfterRax, launchSimAfterRcx,
    GeneralRegisters.to_cpu_registers, GeneralRegisters.offset_of_rax,
    GeneralRegisters.offset_of_rcx]

end Hvisor
